import Mathlib

/-!
Verification development for the innovation-workflow backend
(generation orchestration layer).

The definitions below are a shallow embedding of the Python source:

* `app/services/agent_service.py` — the structured extractor
  (`extract_json_from_response`) and the single-shot invocation chain
  (`generate_json`);
* `app/database/query/db_project.py` — the per-stage persistence
  functions `update_stage_1` … `update_stage_4` with their cascading
  resets;
* `app/services/project_service.py` — the stage pipeline
  (`process_stage_2`, `process_stage_3`, `process_stage_4`) and the
  per-idea image fan-out.

Modelling conventions: machine strings are Lean `String` / `List Char`;
Python `json.loads` is modelled by a recursive-descent parser over a
`Json` value type (numbers restricted to integers, `\u` escapes not
modelled — no claim depends on either); `datetime` timestamps are not
modelled (no claim mentions them); asynchronous calls are modelled by
explicit outcome parameters, and the sequence of database writes a
pipeline run performs is returned as an explicit list.
-/

namespace InnovWf

/-! ## Character-level helpers (Python `str.strip`, `\s`) -/

/-- Python whitespace as used by `str.strip` and the regex class `\s`. -/
def wsChar (c : Char) : Bool :=
  c = ' ' || c = '\t' || c = '\n' || c = '\r' || c = '\x0b' || c = '\x0c'

/-- Drop leading whitespace (left part of Python `str.strip`). -/
def trimL (l : List Char) : List Char := l.dropWhile wsChar

/-- Drop trailing whitespace (right part of Python `str.strip`). -/
def trimR (l : List Char) : List Char := (l.reverse.dropWhile wsChar).reverse

/-- Python `str.strip` on a character list. -/
def trimChars (l : List Char) : List Char := trimR (trimL l)

/-- Python `str.strip` on a `String`. -/
def pyStrip (s : String) : String := String.mk (trimChars s.data)

/-- The backtick character, written by code point. -/
def tickChar : Char := Char.ofNat 96

/-! ## JSON values and a model of Python `json.loads` -/

/-- JSON values. Objects keep their entries in parse order. Numbers are
restricted to integers (the source never persists fractional payload
numbers and no claim involves them). -/
inductive Json where
  | null
  | bool (b : Bool)
  | num (n : Int)
  | str (s : String)
  | arr (items : List Json)
  | obj (entries : List (String × Json))
deriving Repr

/-- Skip JSON whitespace. -/
def skipWs (l : List Char) : List Char := l.dropWhile wsChar

/-- Parse the body of a JSON string after the opening quote.  Raw control
characters are rejected, as in strict `json.loads`. -/
def parseStringBody : Nat → List Char → Option (String × List Char)
  | 0, _ => none
  | _, [] => none
  | fuel+1, c :: rest =>
    if c = '"' then some ("", rest)
    else if c = '\\' then
      match rest with
      | [] => none
      | e :: rest2 =>
        let dec : Option Char :=
          if e = '"' then some '"'
          else if e = '\\' then some '\\'
          else if e = '/' then some '/'
          else if e = 'n' then some '\n'
          else if e = 't' then some '\t'
          else if e = 'r' then some '\r'
          else if e = 'b' then some '\x08'
          else if e = 'f' then some '\x0c'
          else none
        match dec with
        | none => none
        | some d =>
          match parseStringBody fuel rest2 with
          | some (s, r) => some (String.mk (d :: s.data), r)
          | none => none
    else if c.toNat < 32 then none
    else
      match parseStringBody fuel rest with
      | some (s, r) => some (String.mk (c :: s.data), r)
      | none => none

/-- Digits of a nonnegative integer literal. -/
def digitsVal (l : List Char) : Nat :=
  l.foldl (fun acc c => acc * 10 + (c.toNat - '0'.toNat)) 0

/-- Parse a JSON integer literal (optional minus sign, digit run). -/
def parseNum (l : List Char) : Option (Int × List Char) :=
  match l with
  | '-' :: rest =>
    let ds := rest.takeWhile Char.isDigit
    if ds = [] then none else some (-(digitsVal ds : Int), rest.dropWhile Char.isDigit)
  | _ =>
    let ds := l.takeWhile Char.isDigit
    if ds = [] then none else some ((digitsVal ds : Int), l.dropWhile Char.isDigit)

mutual

/-- Parse one JSON value, skipping leading whitespace.  Fuel decreases on
every recursive call; callers supply fuel larger than the input length. -/
def parseVal : Nat → List Char → Option (Json × List Char)
  | 0, _ => none
  | fuel+1, l =>
    match skipWs l with
    | 'n' :: 'u' :: 'l' :: 'l' :: rest => some (.null, rest)
    | 't' :: 'r' :: 'u' :: 'e' :: rest => some (.bool true, rest)
    | 'f' :: 'a' :: 'l' :: 's' :: 'e' :: rest => some (.bool false, rest)
    | '"' :: rest =>
      match parseStringBody (fuel+1) rest with
      | some (s, r) => some (.str s, r)
      | none => none
    | '[' :: rest =>
      match skipWs rest with
      | ']' :: r2 => some (.arr [], r2)
      | r2 =>
        match parseArrTail fuel r2 with
        | some (items, r3) => some (.arr items, r3)
        | none => none
    | '{' :: rest =>
      match skipWs rest with
      | '}' :: r2 => some (.obj [], r2)
      | r2 =>
        match parseObjTail fuel r2 with
        | some (entries, r3) => some (.obj entries, r3)
        | none => none
    | l2 =>
      match parseNum l2 with
      | some (n, r) => some (.num n, r)
      | none => none

/-- Parse the elements of a non-empty JSON array, up to and including the
closing bracket. -/
def parseArrTail : Nat → List Char → Option (List Json × List Char)
  | 0, _ => none
  | fuel+1, l =>
    match parseVal fuel l with
    | none => none
    | some (v, r) =>
      match skipWs r with
      | ',' :: r2 =>
        match parseArrTail fuel r2 with
        | some (vs, r3) => some (v :: vs, r3)
        | none => none
      | ']' :: r2 => some ([v], r2)
      | _ => none

/-- Parse the entries of a non-empty JSON object, up to and including the
closing brace. -/
def parseObjTail : Nat → List Char → Option (List (String × Json) × List Char)
  | 0, _ => none
  | fuel+1, l =>
    match skipWs l with
    | '"' :: rest =>
      match parseStringBody fuel rest with
      | none => none
      | some (k, r) =>
        match skipWs r with
        | ':' :: r2 =>
          match parseVal fuel r2 with
          | none => none
          | some (v, r3) =>
            match skipWs r3 with
            | ',' :: r4 =>
              match parseObjTail fuel r4 with
              | some (es, r5) => some ((k, v) :: es, r5)
              | none => none
            | '}' :: r4 => some ([(k, v)], r4)
            | _ => none
        | _ => none
    | _ => none

end

/-- Model of `json.loads` on a character list: one JSON value with only
whitespace around it, otherwise failure. -/
def json_loads_chars (l : List Char) : Option Json :=
  match parseVal (2 * l.length + 8) l with
  | some (v, rest) => if skipWs rest = [] then some v else none
  | none => none

/-- Model of `json.loads` on a `String`. -/
def json_loads (s : String) : Option Json :=
  json_loads_chars s.data

/-- Python `d.get(key)` on a parsed JSON object: first entry with the key
(`json.loads` produces unique keys except for duplicate source keys, which
no claim exercises); `none` on a missing key or a non-object. -/
def jGet (j : Json) (key : String) : Option Json :=
  match j with
  | .obj entries => (entries.find? (fun e => e.1 = key)).map (fun e => e.2)
  | _ => none

/-! ## Structured extractor — `AgentService.extract_json_from_response`

The source applies, in order: `response_text.strip()`, removal of `//`
line comments (the multiline regex substitution), removal of `/* */`
block comments (the dotall regex substitution), and then
an ordered chain of extraction strategies, returning the first candidate
that `json.loads` accepts. -/

/-- Cut one line at its first `//` (the multiline regex removes, on each
line, everything from the first `//` to the end of the line). -/
def cutLineComment : List Char → List Char
  | [] => []
  | '/' :: '/' :: _ => []
  | c :: rest => c :: cutLineComment rest

/-- The multiline substitution removing line comments: newlines survive,
each line loses its suffix from the first `//`. -/
def stripLineComments (l : List Char) : List Char :=
  List.intercalate ['\n'] ((l.splitOn '\n').map cutLineComment)

/-- After an opening `/*`, drop up to and including the first `*/`
(the lazy `.*?`); `none` when the comment is unterminated. -/
def dropToBlockEnd : List Char → Option (List Char)
  | [] => none
  | '*' :: '/' :: rest => some rest
  | _ :: rest => dropToBlockEnd rest

/-- The dotall substitution removing block comments: left-to-right,
non-overlapping removal of lazily matched block comments.  An opening
`/*` with no later `*/` matches nothing and is kept. -/
def stripBlockGo : Nat → List Char → List Char
  | 0, l => l
  | _+1, [] => []
  | fuel+1, '/' :: '*' :: rest =>
    match dropToBlockEnd rest with
    | some rest2 => stripBlockGo fuel rest2
    | none => '/' :: '*' :: stripBlockGo fuel rest
  | fuel+1, c :: rest => c :: stripBlockGo fuel rest

/-- Block-comment removal with enough fuel for the whole input. -/
def stripBlockComments (l : List Char) : List Char := stripBlockGo l.length l

/-- The `cleaned_text`: strip, then line comments, then block comments. -/
def clean_text (s : String) : List Char :=
  stripBlockComments (stripLineComments (trimChars s.data))

/-- First index of a character. -/
def firstIdx (c : Char) : List Char → Option Nat
  | [] => none
  | x :: rest => if x = c then some 0 else (firstIdx c rest).map (· + 1)

/-- Last index of a character. -/
def lastIdx (c : Char) (l : List Char) : Option Nat :=
  (firstIdx c l.reverse).map (fun k => l.length - 1 - k)

/-- Does the list start with a triple backtick? -/
def startsFence (l : List Char) : Bool :=
  l.take 3 = [tickChar, tickChar, tickChar]

/-- Is a triple backtick present anywhere? -/
def hasFence : List Char → Bool
  | [] => false
  | x :: rest => startsFence (x :: rest) || hasFence rest

/-- Lazy group `(\{.*?\})` followed by `\s*` three backticks: having read
the opening brace, extend to each following `}` in turn and stop at the
first one whose tail is `\s*` and a closing fence.  `acc` holds the group
read so far, reversed. -/
def fencedLazyGo : List Char → List Char → Option (List Char)
  | [], _ => none
  | c :: rest, acc =>
    let acc2 := c :: acc
    if c = '}' then
      if startsFence (skipWs rest) then some acc2.reverse
      else fencedLazyGo rest acc2
    else fencedLazyGo rest acc2

/-- Match the fenced-block regex at the current position: a triple
backtick, an optional `json` tag (greedy, with backtracking), `\s*`, then
the lazy braced group. -/
def fencedAt (l : List Char) : Option (List Char) :=
  if startsFence l then
    let rest := l.drop 3
    let tryFrom : List Char → Option (List Char) := fun r =>
      match skipWs r with
      | '{' :: r2 => fencedLazyGo r2 ['{']
      | _ => none
    if rest.take 4 = "json".data then
      match tryFrom (rest.drop 4) with
      | some g => some g
      | none => tryFrom rest
    else tryFrom rest
  else none

/-- The `re.search` of the fenced-block pattern: leftmost starting position
that matches wins. -/
def fencedSearch : List Char → Option (List Char)
  | [] => none
  | x :: rest =>
    match fencedAt (x :: rest) with
    | some g => some g
    | none => fencedSearch rest

/-- Strategy: fenced code block, candidate stripped, accepted if it
parses. -/
def strategyFenced (cleaned : List Char) : Option (List Char) :=
  match fencedSearch cleaned with
  | none => none
  | some cand =>
    let e := trimChars cand
    if (json_loads_chars e).isSome then some e else none

/-- The dotall search for the greedy brace pattern: the span from the first `{`
to the last `}`, when the latter comes after the former. -/
def greedyCandidate (l : List Char) : Option (List Char) :=
  match firstIdx '{' l, lastIdx '}' l with
  | some i, some j => if i < j then some ((l.drop i).take (j - i + 1)) else none
  | _, _ => none

/-- Strategy: greedy brace span, candidate stripped, accepted if it
parses. -/
def strategyGreedy (cleaned : List Char) : Option (List Char) :=
  match greedyCandidate cleaned with
  | none => none
  | some cand =>
    let e := trimChars cand
    if (json_loads_chars e).isSome then some e else none

/-- Walk from an opening brace counting depth; return the prefix ending
at the brace that balances the first one. Brace characters inside string
literals are counted too, exactly as in the source. -/
def balancedGo : List Char → Nat → List Char → Option (List Char)
  | [], _, _ => none
  | c :: rest, depth, acc =>
    if c = '{' then balancedGo rest (depth + 1) (c :: acc)
    else if c = '}' then
      if depth = 1 then some (c :: acc).reverse
      else balancedGo rest (depth - 1) (c :: acc)
    else balancedGo rest depth (c :: acc)

/-- The first balanced brace span starting at the first `{`. -/
def balancedCandidate (l : List Char) : Option (List Char) :=
  match firstIdx '{' l with
  | none => none
  | some i => balancedGo (l.drop i) 0 []

/-- Strategy: balanced-brace scan.  The source tries the single balanced
candidate and breaks out of the scan if it does not parse. -/
def strategyBalanced (cleaned : List Char) : Option (List Char) :=
  match balancedCandidate cleaned with
  | none => none
  | some cand => if (json_loads_chars cand).isSome then some cand else none

/-- Strategy: parse the whole cleaned text as-is. -/
def strategyWhole (cleaned : List Char) : Option (List Char) :=
  if (json_loads_chars cleaned).isSome then some cleaned else none

/-- Join lines with newlines (`'\n'.join`). -/
def joinNl (ls : List (List Char)) : List Char := List.intercalate ['\n'] ls

/-- Try `'\n'.join(lines[i:j])` for `j = i+k`, `k` growing, accepting the
first candidate that parses. -/
def tryTake (segs : List (List Char)) : Nat → Nat → Option (List Char)
  | _, 0 => none
  | k, fuel+1 =>
    if k > segs.length then none
    else
      let cand := joinNl (segs.take k)
      if (json_loads_chars cand).isSome then some cand
      else tryTake segs (k + 1) fuel

/-- Strategy: line-by-line windows.  For each line whose strip starts with
`{`, extend the window line by line until a parse succeeds. -/
def linesGo : List (List Char) → Option (List Char)
  | [] => none
  | ln :: rest =>
    if (trimL ln).take 1 = ['{'] then
      match tryTake (ln :: rest) 1 (rest.length + 1) with
      | some cand => some cand
      | none => linesGo rest
    else linesGo rest

/-- Strategy: line-by-line candidate windows over the cleaned text. -/
def strategyLines (cleaned : List Char) : Option (List Char) :=
  linesGo (cleaned.splitOn '\n')

/-- The `AgentService.extract_json_from_response`: empty input yields the
literal empty object; otherwise clean the text and return the first
strategy hit, falling back to the cleaned text itself. -/
def extract_json_from_response (response_text : String) : String :=
  if response_text = "" then "\x7b\x7d"
  else
    let cleaned := clean_text response_text
    match strategyFenced cleaned with
    | some e => String.mk e
    | none =>
      match strategyGreedy cleaned with
      | some e => String.mk e
      | none =>
        match strategyBalanced cleaned with
        | some e => String.mk e
        | none =>
          match strategyWhole cleaned with
          | some e => String.mk e
          | none =>
            match strategyLines cleaned with
            | some e => String.mk e
            | none => String.mk cleaned

/-- The caller-facing variant for an absent response: Python `if not
response_text` treats `None` exactly like the empty string. -/
def extract_json_from_response_opt (response_text : Option String) : String :=
  match response_text with
  | none => "\x7b\x7d"
  | some s => extract_json_from_response s

/-! ## Invocation chain — `AgentService.generate_json`

The retry loop iterates `enumerate(delays)` with `delays = [5, 10, 15,
20]`; every call goes to the primary `GEMINI_MODEL`; a failed attempt
that is not the last sleeps its delay; after the last failure the
backend-unavailable exception is raised.  The backend is modelled as an
oracle from the attempt index to its outcome. -/

/-- Primary model name (`app/constant/config.py` default; an environment
override changes the string but not the control flow). -/
def GEMINI_MODEL : String := "gemini-3-flash-preview"

/-- Retry delays in seconds, as in the source. -/
def generate_json_delays : List Nat := [5, 10, 15, 20]

/-- Observable outcome of one `generate_json` call: the model name of
each backend call in order, the delays slept in order, and the returned
string or the terminal backend-unavailable failure. -/
structure GenRun where
  models : List String
  sleeps : List Nat
  result : Except Unit String
deriving Repr

/-- The retry loop over the remaining delays; `k` is the attempt index. -/
def genAttempts (oracle : Nat → Except String String) : Nat → List Nat → GenRun
  | _, [] => ⟨[], [], .error ()⟩
  | k, d :: rest =>
    match oracle k with
    | .ok raw => ⟨[GEMINI_MODEL], [], .ok (extract_json_from_response raw)⟩
    | .error _ =>
      if rest = [] then ⟨[GEMINI_MODEL], [], .error ()⟩
      else
        let r := genAttempts oracle (k + 1) rest
        ⟨GEMINI_MODEL :: r.models, d :: r.sleeps, r.result⟩

/-- The `AgentService.generate_json` under a backend oracle. -/
def generate_json_run (oracle : Nat → Except String String) : GenRun :=
  genAttempts oracle 0 generate_json_delays

/-- Number of failing attempts before the first success, capped at 4
(the length of the delay list). -/
def failStreakGo (oracle : Nat → Except String String) : Nat → Nat → Nat
  | _, 0 => 0
  | k, fuel+1 =>
    match oracle k with
    | .ok _ => 0
    | .error _ => 1 + failStreakGo oracle (k + 1) fuel

/-- Failing prefix of the oracle, capped at the attempt budget. -/
def failStreak (oracle : Nat → Except String String) : Nat :=
  failStreakGo oracle 0 4

/-! ## Project data model — `app/schema/project.py`, `app/constant/status.py` -/

/-- The `StageStatus`. -/
inductive StageStatus where
  | NOT_STARTED
  | IN_PROGRESS
  | COMPLETED
deriving DecidableEq, Repr

/-- The `ProblemStatement` (stage-2 entries).  The identity is generated at
construction; `is_custom` distinguishes user-supplied entries. -/
structure ProblemStatement where
  problem : String
  explanation : String
  id : String
  is_custom : Bool
deriving DecidableEq, Repr

/-- The `ProductIdea` as persisted (the pydantic schema: keys outside
`id`, `idea`, `detailed_explanation`, `problem_id` are ignored on
validation, so the runtime `image_url` key is not part of the persisted
record). -/
structure ProductIdea where
  id : String
  idea : String
  detailed_explanation : String
  problem_id : Option String
deriving DecidableEq, Repr

/-- The in-memory idea dictionary during a stage-3 run, after the id and
problem back-reference assignments; `image_url` is written by the
fan-out. -/
structure IdeaDict where
  id : String
  idea : String
  detailed_explanation : String
  problem_id : String
  image_url : Option String
deriving DecidableEq, Repr

/-- Persistence coercion of a runtime idea dictionary into the
`ProductIdea` schema (the `image_url` key is dropped). -/
def toProductIdea (d : IdeaDict) : ProductIdea :=
  ⟨d.id, d.idea, d.detailed_explanation, some d.problem_id⟩

/-- Tagged model of the schema-less `Stage.data` dictionary: the empty
reset payload, or the dictionary written by the corresponding
`update_stage_n` (`Stage1Data` … `Stage4Data`). -/
inductive StageData where
  | emptyD
  | s1 (analysis : String)
  | s2 (problem_statements : List ProblemStatement)
       (custom_problems : List ProblemStatement)
  | s3 (product_ideas : List ProductIdea)
  | s4 (chosen_solution : ProductIdea)
deriving DecidableEq, Repr

/-- The `stage.data.get("analysis")`. -/
def analysisOf : StageData → Option String
  | .s1 a => some a
  | _ => none

/-- The `stage.data.get("problem_statements", [])`. -/
def problemStatementsOf : StageData → List ProblemStatement
  | .s2 ps _ => ps
  | _ => []

/-- The `stage.data.get("custom_problems", [])`. -/
def customProblemsOf : StageData → List ProblemStatement
  | .s2 _ cps => cps
  | _ => []

/-- The `stage.data.get("product_ideas", [])`. -/
def productIdeasOf : StageData → List ProductIdea
  | .s3 ideas => ideas
  | _ => []

/-- A `Stage` record (timestamps omitted: no claim mentions them). -/
structure Stage where
  stage_number : Nat
  status : StageStatus
  data : StageData
deriving DecidableEq, Repr

/-- A `Project`.  The `stages` list always has exactly the four stages
with `stage_number` 1–4 (schema invariant, enforced by the pydantic
default factory and never changed), so it is modelled as four named
fields; Python `stages[k]` is field `stage(k+1)`. -/
structure Project where
  id : String
  user_id : String
  problem_domain : String
  document_id : Option String
  stage1 : Stage
  stage2 : Stage
  stage3 : Stage
  stage4 : Stage
deriving DecidableEq, Repr

/-- The stage with a given `stage_number` (`next(s for s in stages if
s.stage_number == n)` on a well-formed project). -/
def stageAt (p : Project) : Nat → Stage
  | 1 => p.stage1
  | 2 => p.stage2
  | 3 => p.stage3
  | _ => p.stage4

/-- The cascading reset applied to downstream stages: status
`NOT_STARTED`, data `{}`. -/
def resetStage (s : Stage) : Stage :=
  { s with status := .NOT_STARTED, data := .emptyD }

/-! ## Persistence layer — `db_project.py` -/

/-- The `update_stage_1`: requires a document reference, writes the analysis,
marks stage 1 completed, resets stages 2–4. -/
def update_stage_1 (p : Project) (analysis : String) : Except String Project :=
  if p.document_id.getD "" = "" then
    .error "No document found. Please upload a document first."
  else
    .ok { p with
      stage1 := { p.stage1 with status := .COMPLETED, data := .s1 analysis }
      stage2 := resetStage p.stage2
      stage3 := resetStage p.stage3
      stage4 := resetStage p.stage4 }

/-- The `update_stage_2`: writes the problem statements and custom problems,
marks stage 2 completed, resets stages 3 and 4.  The dynamic
type-checks of the source are discharged by the types here. -/
def update_stage_2 (p : Project) (problem_statements custom_problems : List ProblemStatement) :
    Project :=
  { p with
    stage2 := { p.stage2 with
      status := .COMPLETED
      data := .s2 problem_statements custom_problems }
    stage3 := resetStage p.stage3
    stage4 := resetStage p.stage4 }

/-- The `update_stage_3`: writes the product ideas, marks stage 3 completed,
resets stage 4. -/
def update_stage_3 (p : Project) (product_ideas : List ProductIdea) : Project :=
  { p with
    stage3 := { p.stage3 with status := .COMPLETED, data := .s3 product_ideas }
    stage4 := resetStage p.stage4 }

/-- The `update_stage_4`: writes the chosen solution and marks stage 4
completed; no other stage is touched. -/
def update_stage_4 (p : Project) (chosen_solution : ProductIdea) : Project :=
  { p with
    stage4 := { p.stage4 with status := .COMPLETED, data := .s4 chosen_solution } }

/-! ## Stage pipeline — `ProjectService`

Each `process_stage_n` is modelled as a pure function of the current
project, the request parameters, the fresh identities it would draw from
`uuid.uuid4()`, and the observable outcomes of its collaborators (the
invocation chain as an `Except Unit String`, the image producer as a
per-idea `Except`).  The returned record carries the ordered list of
database writes the run performed, the number of `generate_json`
invocations, and the result surfaced to the caller.  Prompt construction
and the document-text read have no observable effect on the persisted
state and are elided. -/

/-- The error taxonomy of the pipeline paths exercised here.  Several
distinct Python exception classes that all surface as generic 500s
(`KeyError` and `TypeError` after a successful parse, pydantic
`ValidationError`) are collapsed into `invalidFormat` / `badPayload`;
no claim separates them further. -/
inductive StageErr where
  | stagePrereq (n : Nat)
  | missingAnalysis
  | bothParams
  | neitherParams
  | emptyCustomProblem
  | problemNotFound (id : String)
  | ideaNotFound (id : String)
  | backendUnavailable
  | emptyResponse
  | refusal
  | invalidFormat
  | badPayload
deriving DecidableEq, Repr

/-- The refusal marker checked by `process_stage_2`. -/
def refusalMarker : String := "Sorry, I can\x27t assist with that"

/-- Substring test (Python `in` on strings). -/
def containsSub (hay needle : List Char) : Bool :=
  match hay with
  | [] => needle.isPrefixOf ([] : List Char)
  | _ :: rest => needle.isPrefixOf hay || containsSub rest needle

/-- Convert one parsed problem-statement object into the pydantic
`ProblemStatement` (required string fields `problem` and `explanation`;
`id` defaults to a fresh uuid, `is_custom` to `false`). -/
def psOfJson (fid : Nat → String) (k : Nat) (j : Json) : Option ProblemStatement :=
  match jGet j "problem", jGet j "explanation" with
  | some (.str pr), some (.str ex) =>
    let theId : Option String :=
      match jGet j "id" with
      | none => some (fid k)
      | some (.str s) => some s
      | some _ => none
    let cust : Option Bool :=
      match jGet j "is_custom" with
      | none => some false
      | some (.bool b) => some b
      | some _ => none
    match theId, cust with
    | some i, some c => some ⟨pr, ex, i, c⟩
    | _, _ => none
  | _, _ => none

/-- Convert the whole `problem_statements` payload list, indexed for the
fresh default identities; any ill-shaped entry fails the validation. -/
def psListOfJson (fid : Nat → String) : Nat → List Json → Option (List ProblemStatement)
  | _, [] => some []
  | k, x :: xs =>
    match psOfJson fid k x with
    | none => none
    | some q => (psListOfJson fid (k + 1) xs).map (fun qs => q :: qs)

/-- Convert one parsed idea object into the runtime idea dictionary after
the loop that sets `problem_id` to the selected problem and defaults a
missing `id` to a fresh uuid. -/
def ideaOfJson (selId : String) (fid : Nat → String) (k : Nat) (j : Json) : Option IdeaDict :=
  match jGet j "idea", jGet j "detailed_explanation" with
  | some (.str ti), some (.str de) =>
    match jGet j "id" with
    | none => some ⟨fid k, ti, de, selId, none⟩
    | some (.str s) => some ⟨s, ti, de, selId, none⟩
    | some _ => none
  | _, _ => none

/-- Convert the whole `product_ideas` payload list. -/
def ideaListOfJson (selId : String) (fid : Nat → String) :
    Nat → List Json → Option (List IdeaDict)
  | _, [] => some []
  | k, x :: xs =>
    match ideaOfJson selId fid k x with
    | none => none
    | some d => (ideaListOfJson selId fid (k + 1) xs).map (fun ds => d :: ds)

/-! ### Fan-out executor — the per-idea image tasks in `process_stage_3` -/

/-- The `generate_image_for_idea`: one per-item task.  The producer call is
wrapped in `try/except`; success stores the reference, any exception is
caught at this boundary and stores an explicit null. -/
def generate_image_for_idea (produce : IdeaDict → Except String String)
    (idea : IdeaDict) : IdeaDict :=
  match produce idea with
  | .ok url => { idea with image_url := some url }
  | .error _ => { idea with image_url := none }

/-- The `asyncio.gather` over the per-idea tasks: every item settles, items
are independent, order is preserved, and the batch itself cannot throw
(it is a total function). -/
def gatherImages (produce : IdeaDict → Except String String)
    (ideas : List IdeaDict) : List IdeaDict :=
  ideas.map (generate_image_for_idea produce)

/-! ### Stage runs -/

/-- Observable outcome of a `process_stage_2` run. -/
structure Run2 where
  writes : List Project
  genCalls : Nat
  result : Except StageErr Stage
deriving Repr

/-- The `process_stage_2`: validate stage 1, call the invocation chain once,
validate the payload shape, persist via `update_stage_2` with an empty
custom-problem list. -/
def process_stage_2 (p : Project) (fid : Nat → String)
    (backend : Except Unit String) : Run2 :=
  if p.stage1.status ≠ .COMPLETED then ⟨[], 0, .error (.stagePrereq 1)⟩
  else
    match analysisOf p.stage1.data with
    | none => ⟨[], 0, .error .missingAnalysis⟩
    | some analysis =>
      if analysis = "" then ⟨[], 0, .error .missingAnalysis⟩
      else
        match backend with
        | .error _ => ⟨[], 1, .error .backendUnavailable⟩
        | .ok response =>
          if trimChars response.data = [] then ⟨[], 1, .error .emptyResponse⟩
          else if containsSub response.data refusalMarker.data then ⟨[], 1, .error .refusal⟩
          else
            match json_loads response with
            | none => ⟨[], 1, .error .invalidFormat⟩
            | some j =>
              match jGet j "problem_statements" with
              | some (.arr items) =>
                if items.isEmpty then ⟨[], 1, .error .badPayload⟩
                else
                  match psListOfJson fid 0 items with
                  | none => ⟨[], 1, .error .badPayload⟩
                  | some psl =>
                    let p2 := update_stage_2 p psl []
                    ⟨[p2], 1, .ok p2.stage2⟩
              | some _ => ⟨[], 1, .error .badPayload⟩
              | none => ⟨[], 1, .error .badPayload⟩

/-- Observable outcome of a `process_stage_3` run. -/
structure Run3 where
  writes : List Project
  genCalls : Nat
  result : Except StageErr Stage
deriving Repr

/-- The tail of a stage-3 run after the target problem is settled:
invocation chain, payload validation, id assignment, image fan-out,
persistence.  `writes0` holds the write already performed by the
custom-problem branch, `pCur` the project state it produced. -/
def stage3Tail (pCur : Project) (writes0 : List Project) (sel : ProblemStatement)
    (fid : Nat → String) (backend : Except Unit String)
    (produce : IdeaDict → Except String String) : Run3 :=
  match backend with
  | .error _ => ⟨writes0, 1, .error .backendUnavailable⟩
  | .ok response =>
    match json_loads response with
    | none => ⟨writes0, 1, .error .invalidFormat⟩
    | some j =>
      match jGet j "product_ideas" with
      | some (.arr items) =>
        match ideaListOfJson sel.id fid 0 items with
        | none => ⟨writes0, 1, .error .badPayload⟩
        | some drafts =>
          let withImages := gatherImages produce drafts
          let p2 := update_stage_3 pCur (withImages.map toProductIdea)
          ⟨writes0 ++ [p2], 1, .ok p2.stage3⟩
      | some _ => ⟨writes0, 1, .error .badPayload⟩
      | none => ⟨writes0, 1, .error .invalidFormat⟩

/-- The `process_stage_3`: validate stages 1 and 2, enforce the
mutually-exclusive parameter pair, resolve the target problem — a
`selected_problem_id` is looked up in the stage-2 `problem_statements`
list, a `custom_problem` gets a fresh identity and is persisted into
stage 2 through `update_stage_2` before the backend call — then run the
generation tail. -/
def process_stage_3 (p : Project) (selected_problem_id custom_problem : Option String)
    (freshProblemId : String) (fid : Nat → String)
    (backend : Except Unit String)
    (produce : IdeaDict → Except String String) : Run3 :=
  if p.stage1.status ≠ .COMPLETED then ⟨[], 0, .error (.stagePrereq 1)⟩
  else if p.stage2.status ≠ .COMPLETED then ⟨[], 0, .error (.stagePrereq 2)⟩
  else
    let all_problem_statements := problemStatementsOf p.stage2.data
    match selected_problem_id, custom_problem with
    | some _, some _ => ⟨[], 0, .error .bothParams⟩
    | none, none => ⟨[], 0, .error .neitherParams⟩
    | some pid, none =>
      match all_problem_statements.find? (fun q => q.id = pid) with
      | none => ⟨[], 0, .error (.problemNotFound pid)⟩
      | some sel => stage3Tail p [] sel fid backend produce
    | none, some c =>
      if trimChars c.data = [] then ⟨[], 0, .error .emptyCustomProblem⟩
      else
        let sel : ProblemStatement := ⟨c, c, freshProblemId, true⟩
        let p1 := update_stage_2 p all_problem_statements
          (customProblemsOf p.stage2.data ++ [sel])
        stage3Tail p1 [p1] sel fid backend produce

/-- The report dictionary returned by a successful stage-4 run. -/
structure Report where
  title : String
  analysis : String
  problem_statement : String
  problem_explanation : String
  solution_idea : String
  solution_explanation : String
  image_url : Option String
deriving DecidableEq, Repr

/-- Observable outcome of a `process_stage_4` run. -/
structure Run4 where
  writes : List Project
  result : Except StageErr Report
deriving Repr

/-- The `process_stage_4`: validate stages 1–3, look the chosen idea up in
the current stage-3 list, persist it via `update_stage_4`, and build the
report (whose problem lookup searches only the generated
`problem_statements`).  The persisted idea record has no `image_url`
key, so the image reference of the report is the `.get` default.  The
not-found failure is re-wrapped into a generic 500 by the enclosing
`except`; the error constructor keeps the cause. -/
def process_stage_4 (p : Project) (chosen_solution_id : String) : Run4 :=
  if p.stage1.status ≠ .COMPLETED then ⟨[], .error (.stagePrereq 1)⟩
  else if p.stage2.status ≠ .COMPLETED then ⟨[], .error (.stagePrereq 2)⟩
  else if p.stage3.status ≠ .COMPLETED then ⟨[], .error (.stagePrereq 3)⟩
  else
    let product_ideas := productIdeasOf p.stage3.data
    match product_ideas.find? (fun i => i.id = chosen_solution_id) with
    | none => ⟨[], .error (.ideaNotFound chosen_solution_id)⟩
    | some chosen =>
      let p2 := update_stage_4 p chosen
      let problem_statements := problemStatementsOf p.stage2.data
      let chosen_problem := problem_statements.find? (fun q => chosen.problem_id = some q.id)
      ⟨[p2], .ok {
        title := "Innovation Report for " ++ p.problem_domain
        analysis := (analysisOf p.stage1.data).getD ""
        problem_statement := (chosen_problem.map (fun q => q.problem)).getD "Problem not found"
        problem_explanation := (chosen_problem.map (fun q => q.explanation)).getD ""
        solution_idea := chosen.idea
        solution_explanation := chosen.detailed_explanation
        image_url := none }⟩

/-- All strings a persisted stage payload contains (used to state that a
payload does or does not hold a copy of some record). -/
def dataStrings : StageData → List String
  | .emptyD => []
  | .s1 a => [a]
  | .s2 ps cps =>
    (ps ++ cps).foldr (fun q acc => q.problem :: q.explanation :: q.id :: acc) []
  | .s3 ideas =>
    ideas.foldr (fun d acc =>
      d.id :: d.idea :: d.detailed_explanation :: (d.problem_id.toList ++ acc)) []
  | .s4 c => c.id :: c.idea :: c.detailed_explanation :: c.problem_id.toList

/-- The cascading-invalidation contract for completing stage `n`: every
stage after `n` is reset to `NOT_STARTED` with empty data, every stage
before `n` is untouched. -/
def cascadeOK (n : Nat) (p q : Project) : Prop :=
  (∀ m, n < m → m ≤ 4 → (stageAt q m).status = .NOT_STARTED ∧ (stageAt q m).data = .emptyD) ∧
  (∀ m, 1 ≤ m → m < n → stageAt q m = stageAt p m)

/-! ## Concrete fixtures -/

/-- A generated stage-2 problem statement. -/
def psA : ProblemStatement := ⟨"P-one", "E-one", "ps-1", false⟩

/-- A second generated stage-2 problem statement. -/
def psB : ProblemStatement := ⟨"P-two", "E-two", "ps-2", false⟩

/-- A user-supplied custom problem. -/
def psCustom : ProblemStatement := ⟨"P-cust", "E-cust", "cid-7", true⟩

/-- A persisted stage-3 idea addressing `psA`. -/
def ideaA : ProductIdea := ⟨"idea-1", "Idea-one", "Detail-one", some "ps-1"⟩

/-- Deterministic stand-in for the `uuid.uuid4()` stream. -/
def fidSeq (k : Nat) : String := "uuid-" ++ toString k

/-- An image producer that succeeds on every idea. -/
def prodOk (d : IdeaDict) : Except String String := .ok ("img-" ++ d.id)

/-- A project with stages 1–3 completed and stage 4 not started. -/
def projFull : Project :=
  { id := "proj-1", user_id := "user-1", problem_domain := "health"
    document_id := some "doc-1"
    stage1 := ⟨1, .COMPLETED, .s1 "An analysis"⟩
    stage2 := ⟨2, .COMPLETED, .s2 [psA, psB] []⟩
    stage3 := ⟨3, .COMPLETED, .s3 [ideaA]⟩
    stage4 := ⟨4, .NOT_STARTED, .emptyD⟩ }

/-- The `projFull` with a previously added custom problem in stage 2. -/
def projCustom : Project :=
  { projFull with stage2 := ⟨2, .COMPLETED, .s2 [psA, psB] [psCustom]⟩ }

/-- A project that has only completed stage 1. -/
def projReady2 : Project :=
  { id := "proj-2", user_id := "user-1", problem_domain := "finance"
    document_id := some "doc-2"
    stage1 := ⟨1, .COMPLETED, .s1 "An analysis"⟩
    stage2 := ⟨2, .NOT_STARTED, .emptyD⟩
    stage3 := ⟨3, .NOT_STARTED, .emptyD⟩
    stage4 := ⟨4, .NOT_STARTED, .emptyD⟩ }

/-- An invocation-chain oracle failing on attempts 0–2, succeeding on 3. -/
def oracleFail3 (k : Nat) : Except String String :=
  if k < 3 then .error "boom" else .ok "\x7b\"a\": 1\x7d"

/-- An invocation-chain oracle failing on every attempt. -/
def oracleAllFail (_ : Nat) : Except String String := .error "boom"

/-- Fan-out items. -/
def ideaD1 : IdeaDict := ⟨"id-1", "I-one", "D-one", "ps-1", none⟩

/-- Second fan-out item; its producer call will throw. -/
def ideaD2 : IdeaDict := ⟨"id-2", "I-two", "D-two", "ps-1", none⟩

/-- Third fan-out item. -/
def ideaD3 : IdeaDict := ⟨"id-3", "I-three", "D-three", "ps-1", none⟩

/-- The three-item fan-out batch. -/
def ideasTriple : List IdeaDict := [ideaD1, ideaD2, ideaD3]

/-- A producer that throws exactly on the second item. -/
def prodFail2 (d : IdeaDict) : Except String String :=
  if d.id = "id-2" then .error "boom" else .ok ("img-" ++ d.id)

/-- A producer differing from `prodFail2` only on the second item. -/
def prodFail2Alt (d : IdeaDict) : Except String String :=
  if d.id = "id-2" then .error "other" else .ok ("img-" ++ d.id)

/-- A stage-2 payload with exactly two problem statements. -/
def respTwoProblems : String :=
  "\x7b\"problem_statements\": [\x7b\"problem\": \"p1\", \"explanation\": \"e1\"\x7d, \x7b\"problem\": \"p2\", \"explanation\": \"e2\"\x7d]\x7d"

/-- The problem statements `respTwoProblems` validates to under `fidSeq`. -/
def psC8 : List ProblemStatement :=
  [⟨"p1", "e1", "uuid-0", false⟩, ⟨"p2", "e2", "uuid-1", false⟩]

/-- A stage-3 run on `projFull` adding a custom problem, with the
invocation chain unavailable. -/
def runC2 : Run3 :=
  process_stage_3 projFull none (some "A new problem") "cp-9" fidSeq (.error ()) prodOk

/-- The first database write of `runC2`. -/
def wC2 : Project := (runC2.writes.head?).getD projFull

/-- A stage-3 run on `projCustom` selecting an identity that exists only
in the custom-problems list. -/
def runC3 : Run3 :=
  process_stage_3 projCustom (some "cid-7") none "x-1" fidSeq (.ok "\x7b\x7d") prodOk

/-- A stage-3 custom-problem run on `projCustom` with the invocation
chain unavailable. -/
def runC6 : Run3 :=
  process_stage_3 projCustom none (some "Another problem") "cp-11" fidSeq (.error ()) prodOk

/-- The database state persisted by `runC6` (last write, or the initial
state if nothing was written). -/
def wC6 : Project := (runC6.writes.getLast?).getD projCustom

/-- A stage-4 run on `projFull` choosing the idea `idea-1`. -/
def runC7 : Run4 := process_stage_4 projFull "idea-1"

/-- The database state persisted by `runC7`. -/
def wC7 : Project := (runC7.writes.head?).getD projFull

/-- A stage-2 run on `projReady2` whose backend returns two problem
statements. -/
def runC8 : Run2 := process_stage_2 projReady2 fidSeq (.ok respTwoProblems)

/-- An otherwise-valid object whose comments include a line that also
carries a real `//` inside a string value (a URL). -/
def s9bad : String := "\x7b\n\"url\": \"http://e.c/a\",\n// note\n\"b\": 2\n\x7d"

/-- The `s9bad` with its comment line (and only it) removed. -/
def s9bad_decommented : String := "\x7b\n\"url\": \"http://e.c/a\",\n\n\"b\": 2\n\x7d"

/-- The object `s9bad` carries. -/
def j9url : Json := .obj [("url", .str "http://e.c/a"), ("b", .num 2)]

/-- A commented object whose comment markers stay outside all strings. -/
def s9good : String := "\x7b\n// note\n\"a\": 1\n\x7d"

/-- The object `s9good` carries. -/
def j9 : Json := .obj [("a", .num 1)]

/-! ## Theorems -/

/-- Shape of the stage-3 tail: exactly one invocation-chain call; the
earlier writes are preserved in order; a backend-unavailable failure adds
no write and only arises from the backend error. -/
theorem stage3Tail_shape (pCur : Project) (w0 : List Project) (sel : ProblemStatement)
    (fid : Nat → String) (b : Except Unit String) (pr : IdeaDict → Except String String) :
    (stage3Tail pCur w0 sel fid b pr).genCalls = 1 ∧
    (∃ t, (stage3Tail pCur w0 sel fid b pr).writes = w0 ++ t) ∧
    ((stage3Tail pCur w0 sel fid b pr).result = .error .backendUnavailable →
      (stage3Tail pCur w0 sel fid b pr).writes = w0) := by
  rcases b with u | response
  · simp only [stage3Tail]
    exact ⟨by simp, ⟨[], by simp⟩, fun _ => by simp⟩
  · simp only [stage3Tail]
    rcases hj : json_loads response with _ | j
    · exact ⟨by simp, ⟨[], by simp⟩, by simp⟩
    · rcases hg : jGet j "product_ideas" with _ | v <;> simp only [hg]
      · exact ⟨by simp, ⟨[], by simp⟩, by simp⟩
      · rcases v with _ | b2 | n | s | items | entries
        · exact ⟨by simp, ⟨[], by simp⟩, by simp⟩
        · exact ⟨by simp, ⟨[], by simp⟩, by simp⟩
        · exact ⟨by simp, ⟨[], by simp⟩, by simp⟩
        · exact ⟨by simp, ⟨[], by simp⟩, by simp⟩
        · rcases hi : ideaListOfJson sel.id fid 0 items with _ | drafts <;> simp only [hi]
          · exact ⟨by simp, ⟨[], by simp⟩, by simp⟩
          · exact ⟨by simp, ⟨_, rfl⟩, by simp⟩
        · exact ⟨by simp, ⟨[], by simp⟩, by simp⟩

/-- The `process_stage_3` on the selected-problem path, unfolded. -/
theorem process_stage_3_sel_eq (p : Project) (pid frid : String) (fid : Nat → String)
    (b : Except Unit String) (pr : IdeaDict → Except String String) :
    process_stage_3 p (some pid) none frid fid b pr =
      if p.stage1.status ≠ .COMPLETED then ⟨[], 0, .error (.stagePrereq 1)⟩
      else if p.stage2.status ≠ .COMPLETED then ⟨[], 0, .error (.stagePrereq 2)⟩
      else
        match (problemStatementsOf p.stage2.data).find? (fun q => q.id = pid) with
        | none => ⟨[], 0, .error (.problemNotFound pid)⟩
        | some sel => stage3Tail p [] sel fid b pr := rfl

/-- The `process_stage_3` on the custom-problem path, unfolded. -/
theorem process_stage_3_cust_eq (p : Project) (c frid : String) (fid : Nat → String)
    (b : Except Unit String) (pr : IdeaDict → Except String String) :
    process_stage_3 p none (some c) frid fid b pr =
      if p.stage1.status ≠ .COMPLETED then ⟨[], 0, .error (.stagePrereq 1)⟩
      else if p.stage2.status ≠ .COMPLETED then ⟨[], 0, .error (.stagePrereq 2)⟩
      else if trimChars c.data = [] then ⟨[], 0, .error .emptyCustomProblem⟩
      else
        stage3Tail
          (update_stage_2 p (problemStatementsOf p.stage2.data)
            (customProblemsOf p.stage2.data ++ [⟨c, c, frid, true⟩]))
          [update_stage_2 p (problemStatementsOf p.stage2.data)
            (customProblemsOf p.stage2.data ++ [⟨c, c, frid, true⟩])]
          ⟨c, c, frid, true⟩ fid b pr := rfl

/-- On the selected-problem path, either nothing is written or the run
reaches the generation tail for a problem found in the generated list. -/
theorem process_stage_3_sel_writes (p : Project) (pid frid : String) (fid : Nat → String)
    (b : Except Unit String) (pr : IdeaDict → Except String String) :
    (process_stage_3 p (some pid) none frid fid b pr).writes = [] ∨
    ∃ sel, process_stage_3 p (some pid) none frid fid b pr = stage3Tail p [] sel fid b pr := by
  rw [process_stage_3_sel_eq]
  split
  · exact Or.inl rfl
  · split
    · exact Or.inl rfl
    · split
      · exact Or.inl rfl
      · exact Or.inr ⟨_, rfl⟩

/-- A stage-2 run either writes nothing or performs exactly the single
completed-stage-2 write. -/
theorem process_stage_2_writes (p : Project) (fid : Nat → String) (b : Except Unit String) :
    (process_stage_2 p fid b).writes = [] ∨
    ∃ psl, process_stage_2 p fid b =
      ⟨[update_stage_2 p psl []], 1, .ok (update_stage_2 p psl []).stage2⟩ := by
  unfold process_stage_2
  repeat' split
  all_goals first
    | exact Or.inl rfl
    | exact Or.inr ⟨_, rfl⟩

/-- Conversion of a payload list preserves the item count — the
validation enforces well-formed entries but no particular length. -/
theorem psListOfJson_length (fid : Nat → String) :
    ∀ (k : Nat) (items : List Json) (psl : List ProblemStatement),
      psListOfJson fid k items = some psl → psl.length = items.length := by
  intro k items
  induction items generalizing k with
  | nil =>
    intro psl h
    simp only [psListOfJson, Option.some.injEq] at h
    subst h
    rfl
  | cons x xs ih =>
    intro psl h
    simp only [psListOfJson] at h
    rcases hx : psOfJson fid k x with _ | q
    · rw [hx] at h
      exact absurd h (by simp)
    · rw [hx] at h
      rcases hr : psListOfJson fid (k + 1) xs with _ | qs
      · rw [hr] at h
        exact absurd h (by simp)
      · rw [hr] at h
        simp at h
        subst h
        simp [ih (k + 1) qs hr]

/-- The `process_stage_2` after the stage-1 checks pass and the backend
responds. -/
theorem process_stage_2_ok_eq (p : Project) (fid : Nat → String) (resp a : String)
    (h1 : p.stage1.status = .COMPLETED)
    (ha : analysisOf p.stage1.data = some a) (ha2 : a ≠ "") :
    process_stage_2 p fid (.ok resp) =
      (if trimChars resp.data = [] then ⟨[], 1, .error .emptyResponse⟩
       else if containsSub resp.data refusalMarker.data then ⟨[], 1, .error .refusal⟩
       else
         match json_loads resp with
         | none => ⟨[], 1, .error .invalidFormat⟩
         | some j =>
           match jGet j "problem_statements" with
           | some (.arr items) =>
             if items.isEmpty then ⟨[], 1, .error .badPayload⟩
             else
               match psListOfJson fid 0 items with
               | none => ⟨[], 1, .error .badPayload⟩
               | some psl =>
                 ⟨[update_stage_2 p psl []], 1, .ok (update_stage_2 p psl []).stage2⟩
           | some _ => ⟨[], 1, .error .badPayload⟩
           | none => ⟨[], 1, .error .badPayload⟩) := by
  unfold process_stage_2
  rw [if_neg (show ¬p.stage1.status ≠ .COMPLETED by simp [h1])]
  simp only [ha]
  rw [if_neg ha2]

/-- A text with no triple backtick admits no fenced-block match. -/
theorem fencedSearch_none (l : List Char) (h : hasFence l = false) :
    fencedSearch l = none := by
  induction l with
  | nil => rfl
  | cons x rest ih =>
    simp only [hasFence, Bool.or_eq_false_iff] at h
    obtain ⟨h1, h2⟩ := h
    simp only [fencedSearch, fencedAt, h1]
    exact ih h2

/-- Python `strip` decomposition: a list is its whitespace prefix, its
stripped core, and its whitespace suffix. -/
theorem trimChars_decomp (l : List Char) :
    ∃ w1 w2, l = w1 ++ trimChars l ++ w2 ∧
      (∀ a ∈ w1, wsChar a = true) ∧ (∀ a ∈ w2, wsChar a = true) := by
  refine ⟨l.takeWhile wsChar, ((l.dropWhile wsChar).reverse.takeWhile wsChar).reverse,
    ?_, ?_, ?_⟩
  · have hsplit := List.takeWhile_append_dropWhile (p := wsChar) (l := l)
    have hcore : trimChars l = ((l.dropWhile wsChar).reverse.dropWhile wsChar).reverse := rfl
    have hrev := List.takeWhile_append_dropWhile (p := wsChar)
      (l := (l.dropWhile wsChar).reverse)
    calc l = l.takeWhile wsChar ++ l.dropWhile wsChar := hsplit.symm
      _ = l.takeWhile wsChar ++ (l.dropWhile wsChar).reverse.reverse := by
          rw [List.reverse_reverse]
      _ = l.takeWhile wsChar ++
            ((l.dropWhile wsChar).reverse.takeWhile wsChar ++
             (l.dropWhile wsChar).reverse.dropWhile wsChar).reverse := by rw [hrev]
      _ = l.takeWhile wsChar ++
            (((l.dropWhile wsChar).reverse.dropWhile wsChar).reverse ++
             ((l.dropWhile wsChar).reverse.takeWhile wsChar).reverse) := by
          rw [List.reverse_append]
      _ = l.takeWhile wsChar ++ trimChars l ++
            ((l.dropWhile wsChar).reverse.takeWhile wsChar).reverse := by
          rw [hcore, List.append_assoc]
  · intro a ha
    exact List.mem_takeWhile_imp ha
  · intro a ha
    rw [List.mem_reverse] at ha
    exact List.mem_takeWhile_imp ha

/-- The `firstIdx` skips a prefix containing no occurrence. -/
theorem firstIdx_append (c : Char) (w l : List Char) (hw : ∀ a ∈ w, a ≠ c) :
    firstIdx c (w ++ l) = (firstIdx c l).map (· + w.length) := by
  induction w with
  | nil =>
    cases hfl : firstIdx c l <;> simp [hfl]
  | cons x xs ih =>
    have hx : ¬x = c := hw x (by simp)
    rw [List.cons_append]
    simp only [firstIdx, if_neg hx]
    rw [ih (fun a ha => hw a (by simp [ha]))]
    cases hfl : firstIdx c l <;> simp [hfl, List.length_cons, Nat.add_assoc]

/-- The greedy brace-span of a whitespace-wrapped braced core is exactly
the core. -/
theorem greedyCandidate_of_wrapped (w1 t w2 : List Char)
    (hw1 : ∀ a ∈ w1, wsChar a = true) (hw2 : ∀ a ∈ w2, wsChar a = true)
    (hh : t.head? = some '{') (hl : t.getLast? = some '}') :
    greedyCandidate (w1 ++ t ++ w2) = some t := by
  obtain ⟨t0, rfl⟩ : ∃ t0, t = '{' :: t0 := by
    cases t with
    | nil => simp at hh
    | cons a t0 =>
      simp only [List.head?] at hh
      exact ⟨t0, by rw [Option.some.injEq] at hh; rw [hh]⟩
  have ht0 : t0 ≠ [] := by
    intro h
    subst h
    simp [List.getLast?] at hl
  have hlen : ('{' :: t0).length ≥ 2 := by
    cases t0 with
    | nil => exact absurd rfl ht0
    | cons b t1 =>
      simp only [List.length_cons]
      omega
  obtain ⟨s, hs⟩ : ∃ s, ('{' :: t0).reverse = '}' :: s := by
    have hrev : ('{' :: t0).reverse.head? = some '}' := by
      rw [List.head?_reverse]
      exact hl
    cases hr : ('{' :: t0).reverse with
    | nil => rw [hr] at hrev; simp at hrev
    | cons b s =>
      rw [hr] at hrev
      simp only [List.head?, Option.some.injEq] at hrev
      exact ⟨s, by rw [hrev]⟩
  have hi : firstIdx '{' (w1 ++ ('{' :: t0) ++ w2) = some w1.length := by
    rw [List.append_assoc]
    rw [firstIdx_append '{' w1 (('{' :: t0) ++ w2)
      (fun a ha => by
        have hws := hw1 a ha
        intro hc
        subst hc
        simp [wsChar] at hws)]
    rw [List.cons_append]
    simp [firstIdx]
  have hlens : t0.length = s.length := by
    have hc := congrArg List.length hs
    simp at hc
    omega
  have hj : lastIdx '}' (w1 ++ ('{' :: t0) ++ w2) =
      some (w1.length + ('{' :: t0).length - 1) := by
    have hrw : (w1 ++ ('{' :: t0) ++ w2).reverse =
        w2.reverse ++ (('}' :: s) ++ w1.reverse) := by
      rw [List.reverse_append, List.reverse_append, hs]
    unfold lastIdx
    rw [hrw]
    rw [firstIdx_append '}' w2.reverse (('}' :: s) ++ w1.reverse)
      (fun a ha => by
        rw [List.mem_reverse] at ha
        have hws := hw2 a ha
        intro hc
        subst hc
        simp [wsChar] at hws)]
    have hre : firstIdx '}' (('}' :: s) ++ w1.reverse) = some 0 := by
      rw [List.cons_append]
      simp [firstIdx]
    rw [hre]
    simp only [Option.map_some']
    simp only [List.length_append, List.length_cons, List.length_reverse]
    congr 1
    omega
  simp only [greedyCandidate, hi, hj]
  rw [if_pos (show w1.length < w1.length + ('{' :: t0).length - 1 by
    simp only [List.length_cons] at hlen ⊢
    omega)]
  have hdrop : ((w1 ++ ('{' :: t0) ++ w2).drop w1.length) = ('{' :: t0) ++ w2 := by
    rw [List.append_assoc]
    exact List.drop_left w1 _
  rw [hdrop]
  have htake : w1.length + ('{' :: t0).length - 1 - w1.length + 1 = ('{' :: t0).length := by
    simp only [List.length_cons]
    omega
  rw [htake]
  rw [List.take_left]

/-- Stripping does not change a list whose ends are not whitespace. -/
theorem trimChars_eq_self {c1 c2 : Char} (t : List Char)
    (hh : t.head? = some c1) (h1 : wsChar c1 = false)
    (hl : t.getLast? = some c2) (h2 : wsChar c2 = false) : trimChars t = t := by
  have e1 : trimL t = t := by
    cases t with
    | nil => simp at hh
    | cons a t0 =>
      simp only [List.head?, Option.some.injEq] at hh
      subst hh
      simp [trimL, List.dropWhile_cons, h1]
  have e2 : trimR t = t := by
    have hrev : t.reverse.head? = some c2 := by
      rw [List.head?_reverse]
      exact hl
    cases hr : t.reverse with
    | nil =>
      rw [hr] at hrev
      simp at hrev
    | cons b s =>
      rw [hr] at hrev
      simp only [List.head?, Option.some.injEq] at hrev
      subst hrev
      unfold trimR
      rw [hr, List.dropWhile_cons]
      rw [if_neg (by simp [h2])]
      rw [← hr, List.reverse_reverse]
  unfold trimChars
  rw [e1, e2]

/-- C9 counterexample: an otherwise valid JSON object with an embedded
`//` comment line whose legitimate removal yields a parseable object —
but which also contains `//` inside a string value — is corrupted by the
extractor: the result does not even parse, so the real fields are not
intact. -/
theorem C9_counterexample :
    json_loads s9bad_decommented = some j9url ∧
    json_loads (extract_json_from_response s9bad) = none :=
  ⟨rfl, rfl⟩

/-- C9 (amended): for every input text whose comment stripping (after
Python strip) yields exactly a brace-delimited object text — in
particular whenever `//` and `/* */` markers occur only outside string
literals — containing no triple-backtick fence, the extractor returns a
string that parses to the carried object, with comments removed and all
real fields intact. -/
theorem C9_extractor_strips_comments (s : String) (j : Json)
    (hfence : hasFence (clean_text s) = false)
    (hh : (trimChars (clean_text s)).head? = some '{')
    (hl : (trimChars (clean_text s)).getLast? = some '}')
    (hp : json_loads_chars (trimChars (clean_text s)) = some j) :
    json_loads (extract_json_from_response s) = some j := by
  have hs : ¬s = "" := by
    intro h
    subst h
    rw [show clean_text "" = [] from rfl] at hh
    simp [trimChars, trimL, trimR] at hh
  obtain ⟨w1, w2, hdecomp, hw1, hw2⟩ := trimChars_decomp (clean_text s)
  set t := trimChars (clean_text s) with ht
  have hgreedy : greedyCandidate (clean_text s) = some t := by
    rw [hdecomp]
    exact greedyCandidate_of_wrapped w1 t w2 hw1 hw2 hh hl
  have htt : trimChars t = t := trimChars_eq_self t hh (by decide) hl (by decide)
  have hstrat : strategyGreedy (clean_text s) = some t := by
    simp only [strategyGreedy, hgreedy]
    rw [htt, hp]
    simp
  have hfenceNone : strategyFenced (clean_text s) = none := by
    simp only [strategyFenced, fencedSearch_none (clean_text s) hfence]
  simp only [extract_json_from_response]
  rw [if_neg hs]
  rw [hfenceNone, hstrat]
  exact hp

/-- C9 witness: the amended statement at a concrete commented object. -/
theorem C9_extractor_strips_comments_witness :
    json_loads (extract_json_from_response s9good) = some j9 :=
  C9_extractor_strips_comments s9good j9 rfl rfl rfl rfl

/-- C2 counterexample: on a project with stage 3 completed, a stage-3
run with a custom problem performs the claimed additive stage-2 change,
but the write goes through the cascading stage-2 update: stages 3 and 4
are reset to NOT_STARTED with empty data, contradicting the claim that
this change by itself triggers no cascade reset. -/
theorem C2_counterexample :
    projFull.stage3.status = .COMPLETED ∧
    projFull.stage3.data ≠ .emptyD ∧
    wC2.stage2.status = .COMPLETED ∧
    problemStatementsOf wC2.stage2.data = problemStatementsOf projFull.stage2.data ∧
    customProblemsOf wC2.stage2.data =
      customProblemsOf projFull.stage2.data ++
        [⟨"A new problem", "A new problem", "cp-9", true⟩] ∧
    wC2.stage3.status = .NOT_STARTED ∧
    wC2.stage3.data = .emptyD ∧
    wC2.stage4.status = .NOT_STARTED ∧
    wC2.stage4.data = .emptyD :=
  ⟨rfl, by decide, rfl, rfl, rfl, rfl, rfl, rfl, rfl⟩

/-- C2 (amended): a stage-3 run given a custom problem persists, as its
first database write, the stage-2 update in which the custom-problems
list gains exactly one new entry with the fresh identity, the generated
problem statements are unchanged and stage 2 remains COMPLETED — but
that write is the cascading stage-2 update, so it also resets stages 3
and 4 to NOT_STARTED with empty data (on a successful run stage 3 is
subsequently completed again by its own write). -/
theorem C2_custom_problem_append (p : Project) (c frid : String) (fid : Nat → String)
    (b : Except Unit String) (pr : IdeaDict → Except String String)
    (h1 : p.stage1.status = .COMPLETED) (h2 : p.stage2.status = .COMPLETED)
    (hc : ¬trimChars c.data = []) :
    (process_stage_3 p none (some c) frid fid b pr).writes.head? =
      some (update_stage_2 p (problemStatementsOf p.stage2.data)
        (customProblemsOf p.stage2.data ++ [⟨c, c, frid, true⟩])) ∧
    (update_stage_2 p (problemStatementsOf p.stage2.data)
        (customProblemsOf p.stage2.data ++ [⟨c, c, frid, true⟩])).stage2.status = .COMPLETED ∧
    problemStatementsOf (update_stage_2 p (problemStatementsOf p.stage2.data)
        (customProblemsOf p.stage2.data ++ [⟨c, c, frid, true⟩])).stage2.data =
      problemStatementsOf p.stage2.data ∧
    customProblemsOf (update_stage_2 p (problemStatementsOf p.stage2.data)
        (customProblemsOf p.stage2.data ++ [⟨c, c, frid, true⟩])).stage2.data =
      customProblemsOf p.stage2.data ++ [⟨c, c, frid, true⟩] ∧
    (update_stage_2 p (problemStatementsOf p.stage2.data)
        (customProblemsOf p.stage2.data ++ [⟨c, c, frid, true⟩])).stage3.status = .NOT_STARTED ∧
    (update_stage_2 p (problemStatementsOf p.stage2.data)
        (customProblemsOf p.stage2.data ++ [⟨c, c, frid, true⟩])).stage3.data = .emptyD ∧
    (update_stage_2 p (problemStatementsOf p.stage2.data)
        (customProblemsOf p.stage2.data ++ [⟨c, c, frid, true⟩])).stage4.status = .NOT_STARTED ∧
    (update_stage_2 p (problemStatementsOf p.stage2.data)
        (customProblemsOf p.stage2.data ++ [⟨c, c, frid, true⟩])).stage4.data = .emptyD := by
  refine ⟨?_, rfl, rfl, rfl, rfl, rfl, rfl, rfl⟩
  rw [process_stage_3_cust_eq]
  rw [if_neg (show ¬p.stage1.status ≠ .COMPLETED by simp [h1])]
  rw [if_neg (show ¬p.stage2.status ≠ .COMPLETED by simp [h2])]
  rw [if_neg hc]
  obtain ⟨-, ⟨t, ht⟩, -⟩ := stage3Tail_shape
    (update_stage_2 p (problemStatementsOf p.stage2.data)
      (customProblemsOf p.stage2.data ++ [⟨c, c, frid, true⟩]))
    [update_stage_2 p (problemStatementsOf p.stage2.data)
      (customProblemsOf p.stage2.data ++ [⟨c, c, frid, true⟩])]
    ⟨c, c, frid, true⟩ fid b pr
  rw [ht]
  simp

/-- C2 witness: the amended statement at a concrete run. -/
theorem C2_custom_problem_append_witness :
    runC2.writes.head? =
      some (update_stage_2 projFull (problemStatementsOf projFull.stage2.data)
        (customProblemsOf projFull.stage2.data ++
          [⟨"A new problem", "A new problem", "cp-9", true⟩])) ∧
    (update_stage_2 projFull (problemStatementsOf projFull.stage2.data)
        (customProblemsOf projFull.stage2.data ++
          [⟨"A new problem", "A new problem", "cp-9", true⟩])).stage2.status = .COMPLETED ∧
    problemStatementsOf (update_stage_2 projFull (problemStatementsOf projFull.stage2.data)
        (customProblemsOf projFull.stage2.data ++
          [⟨"A new problem", "A new problem", "cp-9", true⟩])).stage2.data =
      problemStatementsOf projFull.stage2.data ∧
    customProblemsOf (update_stage_2 projFull (problemStatementsOf projFull.stage2.data)
        (customProblemsOf projFull.stage2.data ++
          [⟨"A new problem", "A new problem", "cp-9", true⟩])).stage2.data =
      customProblemsOf projFull.stage2.data ++
        [⟨"A new problem", "A new problem", "cp-9", true⟩] ∧
    (update_stage_2 projFull (problemStatementsOf projFull.stage2.data)
        (customProblemsOf projFull.stage2.data ++
          [⟨"A new problem", "A new problem", "cp-9", true⟩])).stage3.status = .NOT_STARTED ∧
    (update_stage_2 projFull (problemStatementsOf projFull.stage2.data)
        (customProblemsOf projFull.stage2.data ++
          [⟨"A new problem", "A new problem", "cp-9", true⟩])).stage3.data = .emptyD ∧
    (update_stage_2 projFull (problemStatementsOf projFull.stage2.data)
        (customProblemsOf projFull.stage2.data ++
          [⟨"A new problem", "A new problem", "cp-9", true⟩])).stage4.status = .NOT_STARTED ∧
    (update_stage_2 projFull (problemStatementsOf projFull.stage2.data)
        (customProblemsOf projFull.stage2.data ++
          [⟨"A new problem", "A new problem", "cp-9", true⟩])).stage4.data = .emptyD :=
  C2_custom_problem_append projFull "A new problem" "cp-9" fidSeq (.error ()) prodOk
    rfl rfl (by decide)

/-- C3 counterexample: an identity present only in the stage-2
custom-problems list is rejected by the selected-problem lookup with a
precondition error and zero backend calls — not accepted as the target
problem. -/
theorem C3_counterexample :
    psCustom ∈ customProblemsOf projCustom.stage2.data ∧
    psCustom.id = "cid-7" ∧
    runC3.result = .error (.problemNotFound "cid-7") ∧
    runC3.genCalls = 0 ∧
    runC3.writes = [] :=
  ⟨by decide, rfl, rfl, rfl, rfl⟩

/-- C3 (amended): a stage-3 run given `selected_problem_id` fails with a
precondition error and makes zero backend calls when, and only when, the
identity is not present in the generated stage-2 `problem_statements`
list; the custom-problems list is not consulted, so an identity present
only there is rejected too. -/
theorem C3_selected_problem_lookup (p : Project) (pid frid : String) (fid : Nat → String)
    (b : Except Unit String) (pr : IdeaDict → Except String String)
    (h1 : p.stage1.status = .COMPLETED) (h2 : p.stage2.status = .COMPLETED) :
    ((process_stage_3 p (some pid) none frid fid b pr).result =
        .error (.problemNotFound pid) ∧
     (process_stage_3 p (some pid) none frid fid b pr).genCalls = 0 ∧
     (process_stage_3 p (some pid) none frid fid b pr).writes = []) ↔
    (problemStatementsOf p.stage2.data).find? (fun q => q.id = pid) = none := by
  rw [process_stage_3_sel_eq]
  rw [if_neg (show ¬p.stage1.status ≠ .COMPLETED by simp [h1])]
  rw [if_neg (show ¬p.stage2.status ≠ .COMPLETED by simp [h2])]
  rcases hf : (problemStatementsOf p.stage2.data).find? (fun q => q.id = pid) with _ | sel
  · simp only [hf]
    simp
  · simp only [hf]
    constructor
    · rintro ⟨-, hg, -⟩
      have h1calls := (stage3Tail_shape p [] sel fid b pr).1
      rw [hg] at h1calls
      exact absurd h1calls (by omega)
    · intro h
      exact absurd h (by simp)

/-- C3 witness: an identity absent from the combined stage-2 lists is
rejected with the precondition error, zero backend calls and no write. -/
theorem C3_selected_problem_lookup_witness :
    (process_stage_3 projFull (some "nope") none "x-2" fidSeq (.ok "\x7b\x7d") prodOk).result =
      .error (.problemNotFound "nope") ∧
    (process_stage_3 projFull (some "nope") none "x-2" fidSeq (.ok "\x7b\x7d") prodOk).genCalls = 0 ∧
    (process_stage_3 projFull (some "nope") none "x-2" fidSeq (.ok "\x7b\x7d") prodOk).writes = [] :=
  (C3_selected_problem_lookup projFull "nope" "x-2" fidSeq (.ok "\x7b\x7d") prodOk
    rfl rfl).mpr (by decide)

/-- C6 counterexample: a stage-3 run with a custom problem whose backend
is unavailable leaves persisted partial state: the custom problem has
been appended and stages 3 and 4 have been reset, so the persisted
project differs from the pre-run state. -/
theorem C6_counterexample :
    runC6.result = .error .backendUnavailable ∧
    runC6.writes ≠ [] ∧
    customProblemsOf wC6.stage2.data =
      customProblemsOf projCustom.stage2.data ++
        [⟨"Another problem", "Another problem", "cp-11", true⟩] ∧
    wC6.stage3.status = .NOT_STARTED ∧
    projCustom.stage3.status = .COMPLETED ∧
    wC6.stage3.data ≠ projCustom.stage3.data :=
  ⟨rfl, by decide, rfl, rfl, rfl, by decide⟩

/-- C6 (amended): a backend-unavailable failure persists no partial
state on a stage-2 run and on a stage-3 run with a selected problem, and
a stage-4 run never raises it (it makes no backend call); but a stage-3
run with a custom problem has already persisted the cascading stage-2
append before the backend call, and that write survives the failure. -/
theorem C6_no_partial_state_on_backend_failure :
    (∀ (p : Project) (fid : Nat → String) (b : Except Unit String),
       (process_stage_2 p fid b).result = .error .backendUnavailable →
       (process_stage_2 p fid b).writes = []) ∧
    (∀ (p : Project) (pid frid : String) (fid : Nat → String) (b : Except Unit String)
       (pr : IdeaDict → Except String String),
       (process_stage_3 p (some pid) none frid fid b pr).result =
         .error .backendUnavailable →
       (process_stage_3 p (some pid) none frid fid b pr).writes = []) ∧
    (∀ (p : Project) (c frid : String) (fid : Nat → String)
       (pr : IdeaDict → Except String String),
       p.stage1.status = .COMPLETED → p.stage2.status = .COMPLETED →
       ¬trimChars c.data = [] →
       (process_stage_3 p none (some c) frid fid (.error ()) pr).result =
         .error .backendUnavailable ∧
       (process_stage_3 p none (some c) frid fid (.error ()) pr).writes =
         [update_stage_2 p (problemStatementsOf p.stage2.data)
           (customProblemsOf p.stage2.data ++ [⟨c, c, frid, true⟩])]) ∧
    (∀ (p : Project) (cid : String),
       (process_stage_4 p cid).result ≠ .error .backendUnavailable) := by
  refine ⟨?_, ?_, ?_, ?_⟩
  · intro p fid b h
    rcases process_stage_2_writes p fid b with hw | ⟨psl, heq⟩
    · exact hw
    · rw [heq] at h
      exact absurd h (by simp)
  · intro p pid frid fid b pr h
    rcases process_stage_3_sel_writes p pid frid fid b pr with hw | ⟨sel, heq⟩
    · exact hw
    · rw [heq] at h ⊢
      exact (stage3Tail_shape p [] sel fid b pr).2.2 h
  · intro p c frid fid pr h1 h2 hc
    rw [process_stage_3_cust_eq]
    rw [if_neg (show ¬p.stage1.status ≠ .COMPLETED by simp [h1])]
    rw [if_neg (show ¬p.stage2.status ≠ .COMPLETED by simp [h2])]
    rw [if_neg hc]
    exact ⟨rfl, rfl⟩
  · intro p cid
    unfold process_stage_4
    split
    · simp
    split
    · simp
    split
    · simp
    rcases hfind : (productIdeasOf p.stage3.data).find? (fun i => i.id = cid) with _ | chosen <;>
      simp [hfind]

/-- C6 witness: the amended statement at concrete runs — a stage-2 run
and a selected-problem stage-3 run with unavailable backends write
nothing, while the concrete custom-problem run retains its cascading
stage-2 write. -/
theorem C6_no_partial_state_witness :
    (process_stage_2 projReady2 fidSeq (.error ())).writes = [] ∧
    (process_stage_3 projFull (some "ps-1") none "x-3" fidSeq (.error ()) prodOk).writes = [] ∧
    ((process_stage_3 projCustom none (some "Another problem") "cp-11" fidSeq
        (.error ()) prodOk).result = .error .backendUnavailable ∧
     (process_stage_3 projCustom none (some "Another problem") "cp-11" fidSeq
        (.error ()) prodOk).writes =
       [update_stage_2 projCustom (problemStatementsOf projCustom.stage2.data)
         (customProblemsOf projCustom.stage2.data ++
           [⟨"Another problem", "Another problem", "cp-11", true⟩])]) ∧
    (process_stage_4 projReady2 "idea-1").result ≠ .error .backendUnavailable :=
  ⟨C6_no_partial_state_on_backend_failure.1 projReady2 fidSeq (.error ()) rfl,
   C6_no_partial_state_on_backend_failure.2.1 projFull "ps-1" "x-3" fidSeq (.error ())
     prodOk rfl,
   C6_no_partial_state_on_backend_failure.2.2.1 projCustom "Another problem" "cp-11"
     fidSeq prodOk rfl rfl (by decide),
   C6_no_partial_state_on_backend_failure.2.2.2 projReady2 "idea-1"⟩

/-- C7 counterexample: after a successful stage-4 run, the persisted
stage-4 payload holds only a snapshot of the chosen idea (with its
`problem_id` back-reference); the associated problem statement is not in
it — neither its text nor its explanation occurs anywhere in the
payload, contradicting the claim that the persisted data holds the idea
together with its associated problem statement. -/
theorem C7_counterexample :
    wC7.stage4.status = .COMPLETED ∧
    wC7.stage4.data = .s4 ideaA ∧
    ideaA.problem_id = some psA.id ∧
    psA ∈ problemStatementsOf projFull.stage2.data ∧
    psA.problem ∉ dataStrings wC7.stage4.data ∧
    psA.explanation ∉ dataStrings wC7.stage4.data :=
  ⟨rfl, rfl, rfl, by decide, by decide, by decide⟩

/-- C7 (amended): on a successful stage-4 run whose chosen idea identity
is found in the current stage-3 list, stage 4 transitions to COMPLETED,
its persisted data is a snapshot of the chosen idea alone (which carries
the problem back-reference; the associated problem statement itself
appears only in the returned report, not in the persisted data), and no
other stage is touched. -/
theorem C7_stage4_snapshot (p : Project) (cid : String) (chosen : ProductIdea)
    (h1 : p.stage1.status = .COMPLETED) (h2 : p.stage2.status = .COMPLETED)
    (h3 : p.stage3.status = .COMPLETED)
    (hfind : (productIdeasOf p.stage3.data).find? (fun i => i.id = cid) = some chosen) :
    (process_stage_4 p cid).writes = [update_stage_4 p chosen] ∧
    (∃ rep, (process_stage_4 p cid).result = .ok rep) ∧
    (update_stage_4 p chosen).stage4.status = .COMPLETED ∧
    (update_stage_4 p chosen).stage4.data = .s4 chosen ∧
    (update_stage_4 p chosen).stage1 = p.stage1 ∧
    (update_stage_4 p chosen).stage2 = p.stage2 ∧
    (update_stage_4 p chosen).stage3 = p.stage3 := by
  unfold process_stage_4
  rw [if_neg (show ¬p.stage1.status ≠ .COMPLETED by simp [h1])]
  rw [if_neg (show ¬p.stage2.status ≠ .COMPLETED by simp [h2])]
  rw [if_neg (show ¬p.stage3.status ≠ .COMPLETED by simp [h3])]
  simp [hfind, update_stage_4]

/-- C7 witness: the amended statement at a concrete run. -/
theorem C7_stage4_snapshot_witness :
    (process_stage_4 projFull "idea-1").writes = [update_stage_4 projFull ideaA] ∧
    (∃ rep, (process_stage_4 projFull "idea-1").result = .ok rep) ∧
    (update_stage_4 projFull ideaA).stage4.status = .COMPLETED ∧
    (update_stage_4 projFull ideaA).stage4.data = .s4 ideaA ∧
    (update_stage_4 projFull ideaA).stage1 = projFull.stage1 ∧
    (update_stage_4 projFull ideaA).stage2 = projFull.stage2 ∧
    (update_stage_4 projFull ideaA).stage3 = projFull.stage3 :=
  C7_stage4_snapshot projFull "idea-1" ideaA rfl rfl rfl (by decide)

/-- C8 counterexample: a payload with exactly two problem statements —
not the expected four — is accepted: the run succeeds, stage 2 is
marked COMPLETED and holds the two statements, so the wrong item count
is not rejected. -/
theorem C8_counterexample :
    runC8.result = .ok (update_stage_2 projReady2 psC8 []).stage2 ∧
    runC8.writes = [update_stage_2 projReady2 psC8 []] ∧
    (update_stage_2 projReady2 psC8 []).stage2.status = .COMPLETED ∧
    (problemStatementsOf (update_stage_2 projReady2 psC8 []).stage2.data).length = 2 ∧
    (problemStatementsOf (update_stage_2 projReady2 psC8 []).stage2.data).length ≠ 4 :=
  ⟨rfl, rfl, rfl, rfl, by decide⟩

/-- C8 (amended): a stage-2 run marks stage 2 COMPLETED whenever the
extracted payload carries a present, non-empty `problem_statements` list
of well-formed entries of any count — the expected count is not
enforced; a payload whose list is missing or empty is rejected with a
malformed-output error distinct from backend-unavailable and stage 2 is
not advanced; a backend failure surfaces as the distinct
backend-unavailable error with nothing persisted. -/
theorem C8_stage2_shape_validation :
    (∀ (p : Project) (fid : Nat → String) (a resp : String) (j : Json) (items : List Json)
       (psl : List ProblemStatement),
       p.stage1.status = .COMPLETED →
       analysisOf p.stage1.data = some a → a ≠ "" →
       ¬trimChars resp.data = [] →
       containsSub resp.data refusalMarker.data = false →
       json_loads resp = some j →
       jGet j "problem_statements" = some (.arr items) →
       items.isEmpty = false →
       psListOfJson fid 0 items = some psl →
       process_stage_2 p fid (.ok resp) =
         ⟨[update_stage_2 p psl []], 1, .ok (update_stage_2 p psl []).stage2⟩ ∧
       (update_stage_2 p psl []).stage2.status = .COMPLETED ∧
       problemStatementsOf (update_stage_2 p psl []).stage2.data = psl ∧
       psl.length = items.length) ∧
    (∀ (p : Project) (fid : Nat → String) (a resp : String) (j : Json),
       p.stage1.status = .COMPLETED →
       analysisOf p.stage1.data = some a → a ≠ "" →
       ¬trimChars resp.data = [] →
       containsSub resp.data refusalMarker.data = false →
       json_loads resp = some j →
       (jGet j "problem_statements" = none ∨
        jGet j "problem_statements" = some (.arr [])) →
       process_stage_2 p fid (.ok resp) = ⟨[], 1, .error .badPayload⟩) ∧
    (∀ (p : Project) (fid : Nat → String) (a : String),
       p.stage1.status = .COMPLETED →
       analysisOf p.stage1.data = some a → a ≠ "" →
       process_stage_2 p fid (.error ()) = ⟨[], 1, .error .backendUnavailable⟩) ∧
    StageErr.badPayload ≠ StageErr.backendUnavailable := by
  refine ⟨?_, ?_, ?_, by simp⟩
  · intro p fid a resp j items psl h1 ha ha2 htrim href hj hg hne hpsl
    rw [process_stage_2_ok_eq p fid resp a h1 ha ha2]
    rw [if_neg htrim]
    rw [if_neg (by simp [href])]
    simp only [hj, hg, hne, hpsl]
    exact ⟨rfl, rfl, rfl, psListOfJson_length fid 0 items psl hpsl⟩
  · intro p fid a resp j h1 ha ha2 htrim href hj hshape
    rw [process_stage_2_ok_eq p fid resp a h1 ha ha2]
    rw [if_neg htrim]
    rw [if_neg (by simp [href])]
    simp only [hj]
    rcases hshape with hg | hg <;> simp only [hg] <;> rfl
  · intro p fid a h1 ha ha2
    unfold process_stage_2
    rw [if_neg (show ¬p.stage1.status ≠ .COMPLETED by simp [h1])]
    simp only [ha]
    rw [if_neg ha2]

/-- C8 witness: the amended statement at the concrete two-statement run,
an empty-list payload and a backend failure. -/
theorem C8_stage2_shape_validation_witness :
    (process_stage_2 projReady2 fidSeq (.ok respTwoProblems) =
       ⟨[update_stage_2 projReady2 psC8 []], 1,
        .ok (update_stage_2 projReady2 psC8 []).stage2⟩ ∧
     (update_stage_2 projReady2 psC8 []).stage2.status = .COMPLETED ∧
     problemStatementsOf (update_stage_2 projReady2 psC8 []).stage2.data = psC8 ∧
     psC8.length = [Json.obj [("problem", .str "p1"), ("explanation", .str "e1")],
                    Json.obj [("problem", .str "p2"), ("explanation", .str "e2")]].length) ∧
    process_stage_2 projReady2 fidSeq (.ok "\x7b\"problem_statements\": []\x7d") =
      ⟨[], 1, .error .badPayload⟩ ∧
    process_stage_2 projReady2 fidSeq (.error ()) =
      ⟨[], 1, .error .backendUnavailable⟩ :=
  ⟨C8_stage2_shape_validation.1 projReady2 fidSeq "An analysis" respTwoProblems
      (.obj [("problem_statements",
        .arr [Json.obj [("problem", .str "p1"), ("explanation", .str "e1")],
              Json.obj [("problem", .str "p2"), ("explanation", .str "e2")]])])
      [Json.obj [("problem", .str "p1"), ("explanation", .str "e1")],
       Json.obj [("problem", .str "p2"), ("explanation", .str "e2")]]
      psC8 rfl rfl (by decide) (by decide) (by decide) rfl rfl rfl rfl,
   C8_stage2_shape_validation.2.1 projReady2 fidSeq "An analysis"
      "\x7b\"problem_statements\": []\x7d"
      (.obj [("problem_statements", .arr [])])
      rfl rfl (by decide) (by decide) (by decide) rfl (Or.inr rfl),
   C8_stage2_shape_validation.2.2.1 projReady2 fidSeq "An analysis"
      rfl rfl (by decide)⟩

/-- C1: for every stage n in {1,2,3,4}, a successful completion of
stage n with new data (the corresponding `update_stage_n` write) resets
every stage m > n to status NOT_STARTED with empty data, and leaves the
status and data of every stage m < n unchanged. -/
theorem C1_cascade_reset :
    (∀ p a q, update_stage_1 p a = .ok q → cascadeOK 1 p q) ∧
    (∀ p ps cps, cascadeOK 2 p (update_stage_2 p ps cps)) ∧
    (∀ p ideas, cascadeOK 3 p (update_stage_3 p ideas)) ∧
    (∀ p c, cascadeOK 4 p (update_stage_4 p c)) := by
  refine ⟨?_, ?_, ?_, ?_⟩
  · intro p a q h
    unfold update_stage_1 at h
    split at h
    · exact absurd h (by simp)
    · cases h
      refine ⟨?_, ?_⟩
      · intro m h1 h2
        interval_cases m <;> simp [stageAt, resetStage]
      · intro m h1 h2
        omega
  · intro p ps cps
    refine ⟨?_, ?_⟩
    · intro m h1 h2
      interval_cases m <;> simp [stageAt, update_stage_2, resetStage]
    · intro m h1 h2
      interval_cases m <;> simp [stageAt, update_stage_2]
  · intro p ideas
    refine ⟨?_, ?_⟩
    · intro m h1 h2
      interval_cases m <;> simp [stageAt, update_stage_3, resetStage]
    · intro m h1 h2
      interval_cases m <;> simp [stageAt, update_stage_3]
  · intro p c
    refine ⟨?_, ?_⟩
    · intro m h1 h2
      omega
    · intro m h1 h2
      interval_cases m <;> simp [stageAt, update_stage_4]

/-- C1 witness: the stage-1 cascade on a concrete fully-advanced
project. -/
theorem C1_cascade_reset_witness :
    update_stage_1 projFull "A2" = .ok ((update_stage_1 projFull "A2").toOption.getD projFull) ∧
    cascadeOK 1 projFull ((update_stage_1 projFull "A2").toOption.getD projFull) :=
  ⟨rfl, C1_cascade_reset.1 projFull "A2" _ rfl⟩

/-- C4: the single-shot invocation chain makes at most 4 attempts, all
against the primary model with no fallback; after the k-th failed
non-final attempt it sleeps the k-th of the escalating delays
5s, 10s, 15s, 20s; an oracle failing on the first 3 attempts and
succeeding on the 4th yields the success result with exactly 4 backend
calls; an oracle failing on all 4 attempts yields the
backend-unavailable failure after exactly 4 calls. -/
theorem C4_single_shot_retry :
    (∀ o, (generate_json_run o).models.length ≤ 4 ∧
       ∀ m ∈ (generate_json_run o).models, m = GEMINI_MODEL) ∧
    (∀ o, (generate_json_run o).sleeps = generate_json_delays.take (min (failStreak o) 3)) ∧
    (∀ o r, (∀ k, k < 3 → ∃ e, o k = .error e) → o 3 = .ok r →
       (generate_json_run o).result = .ok (extract_json_from_response r) ∧
       (generate_json_run o).models.length = 4 ∧
       (generate_json_run o).sleeps = [5, 10, 15]) ∧
    (∀ o, (∀ k, k < 4 → ∃ e, o k = .error e) →
       (generate_json_run o).result = .error () ∧
       (generate_json_run o).models.length = 4 ∧
       (generate_json_run o).sleeps = [5, 10, 15]) := by
  refine ⟨?_, ?_, ?_, ?_⟩
  · intro o
    cases h0 : o 0 <;> cases h1 : o 1 <;> cases h2 : o 2 <;> cases h3 : o 3 <;>
      simp [generate_json_run, genAttempts, generate_json_delays, h0, h1, h2, h3]
  · intro o
    cases h0 : o 0 <;> cases h1 : o 1 <;> cases h2 : o 2 <;> cases h3 : o 3 <;>
      simp [generate_json_run, genAttempts, generate_json_delays,
        failStreak, failStreakGo, h0, h1, h2, h3]
  · intro o r h hok
    obtain ⟨e0, h0⟩ := h 0 (by omega)
    obtain ⟨e1, h1⟩ := h 1 (by omega)
    obtain ⟨e2, h2⟩ := h 2 (by omega)
    simp [generate_json_run, genAttempts, generate_json_delays, h0, h1, h2, hok]
  · intro o h
    obtain ⟨e0, h0⟩ := h 0 (by omega)
    obtain ⟨e1, h1⟩ := h 1 (by omega)
    obtain ⟨e2, h2⟩ := h 2 (by omega)
    obtain ⟨e3, h3⟩ := h 3 (by omega)
    simp [generate_json_run, genAttempts, generate_json_delays, h0, h1, h2, h3]

/-- C4 witness: the fail-three-then-succeed oracle and the all-fail
oracle, at concrete inputs. -/
theorem C4_single_shot_retry_witness :
    ((generate_json_run oracleFail3).result = .ok (extract_json_from_response "\x7b\"a\": 1\x7d") ∧
     (generate_json_run oracleFail3).models.length = 4 ∧
     (generate_json_run oracleFail3).sleeps = [5, 10, 15]) ∧
    ((generate_json_run oracleAllFail).result = .error () ∧
     (generate_json_run oracleAllFail).models.length = 4 ∧
     (generate_json_run oracleAllFail).sleeps = [5, 10, 15]) :=
  ⟨C4_single_shot_retry.2.2.1 oracleFail3 "\x7b\"a\": 1\x7d"
      (fun k hk => ⟨"boom", by simp [oracleFail3, hk]⟩) rfl,
   C4_single_shot_retry.2.2.2 oracleAllFail
      (fun k _ => ⟨"boom", rfl⟩)⟩

/-- C5: the image fan-out settles every item and returns one artifact
slot per input item — the batch is a total function whose k-th output is
determined by the k-th input alone, carrying the produced reference on
success and an explicit null when the producer throws, with all other
fields untouched; a producer change at other items never affects item
k. -/
theorem C5_fanout_isolation (produce : IdeaDict → Except String String)
    (ideas : List IdeaDict) :
    (gatherImages produce ideas).length = ideas.length ∧
    (∀ k : Nat, (gatherImages produce ideas)[k]? =
       (ideas[k]?).map (generate_image_for_idea produce)) ∧
    (∀ d, (generate_image_for_idea produce d).image_url = (produce d).toOption ∧
       (generate_image_for_idea produce d).id = d.id ∧
       (generate_image_for_idea produce d).idea = d.idea ∧
       (generate_image_for_idea produce d).detailed_explanation = d.detailed_explanation ∧
       (generate_image_for_idea produce d).problem_id = d.problem_id) ∧
    (∀ (produce2 : IdeaDict → Except String String) (k : Nat),
       (∀ d, ideas[k]? = some d → produce d = produce2 d) →
       (gatherImages produce ideas)[k]? = (gatherImages produce2 ideas)[k]?) := by
  refine ⟨?_, ?_, ?_, ?_⟩
  · simp [gatherImages]
  · intro k
    simp [gatherImages, List.getElem?_map]
  · intro d
    cases h : produce d <;>
      simp [generate_image_for_idea, Except.toOption, h]
  · intro produce2 k hagree
    simp only [gatherImages, List.getElem?_map]
    cases hk : ideas[k]? with
    | none => rfl
    | some d =>
      simp [generate_image_for_idea, hagree d hk]

/-- C5 witness: three items whose second producer throws settle to
artifact, null, artifact, and isolation holds at item 0 for a producer
differing only on item 1. -/
theorem C5_fanout_isolation_witness :
    (gatherImages prodFail2 ideasTriple).length = 3 ∧
    (gatherImages prodFail2 ideasTriple).map IdeaDict.image_url =
      [some "img-id-1", none, some "img-id-3"] ∧
    (gatherImages prodFail2 ideasTriple)[0]? = (gatherImages prodFail2Alt ideasTriple)[0]? :=
  ⟨((C5_fanout_isolation prodFail2 ideasTriple).1).trans rfl,
   rfl,
   (C5_fanout_isolation prodFail2 ideasTriple).2.2.2 prodFail2Alt 0
     (fun d hd => by
       simp [ideasTriple] at hd
       subst hd
       rfl)⟩

/-- C10: an empty or missing raw response short-circuits the extractor
to the literal two-character empty-object string, before any parse
strategy runs. -/
theorem C10_empty_or_missing :
    extract_json_from_response "" = "\x7b\x7d" ∧
    extract_json_from_response_opt none = "\x7b\x7d" ∧
    extract_json_from_response_opt (some "") = "\x7b\x7d" :=
  ⟨rfl, rfl, rfl⟩

end InnovWf
